import Mathlib

/-!
Shallow embedding of `wrapper.py` (class `Sequence`) from the PolDeepNer
repository, together with theorems checking the natural-language
specification against it.

The orchestrator delegates to external collaborators (VectorTransformer,
BiLSTMCRF, Trainer, load_data, save_model/load_model, seqeval f1_score)
whose code is not part of the visible source.  They are modelled
parametrically: a `Collab` record supplies their carrier types and
(pure) behaviours, and every theorem about orchestration control flow is
proved for an arbitrary `Collab`.  Concrete instances are used only for
counterexamples and witnesses.
-/

namespace PolDeepNer

/-- Errors that the embedded Python methods can raise.
`oserror` models an explicit `raise OSError(msg)`;
`attributeError` models Python's failure when an attribute
(such as `.predict`) is invoked on `None`;
`indexError` models an out-of-range subscript such as `y_pred[0]` on an
empty list. -/
inductive SeqError where
  | oserror (msg : String)
  | attributeError (msg : String)
  | indexError (msg : String)
deriving DecidableEq, Repr

/-- Result of `Trainer(model, preprocessor).train(...)`: the Trainer trains
the given model in place (`current` is that model object after training)
and exposes `best_model` and `best_model_report`.  The Trainer's code is
external to the source file; only these observables are used by
`wrapper.py`. -/
structure TrainOutcome (M : Type) where
  current : M
  best : M
  bestReport : String
deriving DecidableEq, Repr

/-- The argument record passed to the `BiLSTMCRF` constructor in
`Sequence.fit` (wrapper.py lines 71-79), field for field. -/
structure BuildArgs where
  num_labels : Nat
  word_embedding_dim : Nat
  word_lstm_size : Nat
  char_lstm_size : Nat
  fc_dim : Nat
  dropout : Rat
  use_char : Bool
  use_crf : Bool
  nn_type : String
deriving DecidableEq, Repr

/-- Abstract collaborator interfaces used by `wrapper.py`.  The concrete
collaborator code (preprocessing.py, models.py, trainer.py, seqeval) is
external to the source file; the orchestrator is embedded parametrically
over their behaviour, which the spec describes only as pure interfaces
(spec section 6). -/
structure Collab where
  Tensor : Type
  PTensor : Type
  Model : Type
  PState : Type
  Loss : Type
  Emb : Type
  Score : Type
  pnew : Emb → Bool → PState
  pfit : PState → List (List String) → List (List String) → PState
  label_size : PState → Nat
  vector_len : PState → Nat
  transform : PState → List (List String) → Tensor
  inverse_transform : PState → PTensor → List Nat → List (List String)
  build : BuildArgs → Model × Loss
  compile : Model → Loss → String → Model
  predict : Model → Tensor → PTensor
  train : Model → PState → List (List String) → List (List String) →
    Option (List (List String)) → Option (List (List String)) →
    Nat → Nat → Nat → Option (List String) → Bool → TrainOutcome Model
  f1 : List (List String) → List (List String) → Score

/-- State of a `Sequence` orchestrator object: the attributes set in
`Sequence.__init__` (wrapper.py lines 31-46) plus `best_report`, an
attribute created dynamically by `fit`. -/
structure Sequence (C : Collab) where
  model : Option C.Model
  tagger : Option Unit
  p : C.PState
  char_embedding_dim : Nat
  word_lstm_size : Nat
  char_lstm_size : Nat
  fc_dim : Nat
  dropout : Rat
  use_char : Bool
  use_crf : Bool
  initial_vocab : Option (List String)
  lower : Bool
  optimizer : String
  nn_type : String
  best_report : Option String

/-- `Sequence.__init__` with all configuration arguments explicit
(wrapper.py lines 17-46): sets `model = None`, `tagger = None`,
constructs the preprocessor bound to the embedding resource and the
`use_char` flag, and stores every hyperparameter. -/
def Sequence.new (C : Collab) (embedding : C.Emb)
    (char_embedding_dim : Nat) (word_lstm_size : Nat) (char_lstm_size : Nat)
    (fc_dim : Nat) (dropout : Rat) (use_char : Bool) (use_crf : Bool)
    (initial_vocab : Option (List String)) (lower : Bool)
    (optimizer : String) (nn_type : String) : Sequence C :=
  { model := none
    tagger := none
    p := C.pnew embedding use_char
    char_embedding_dim := char_embedding_dim
    word_lstm_size := word_lstm_size
    char_lstm_size := char_lstm_size
    fc_dim := fc_dim
    dropout := dropout
    use_char := use_char
    use_crf := use_crf
    initial_vocab := initial_vocab
    lower := lower
    optimizer := optimizer
    nn_type := nn_type
    best_report := none }

/-- `Sequence(embedding)` with every keyword argument left at its default
value (wrapper.py lines 17-29); this is exactly the construction performed
by `Sequence.load` via `cls(embedding_object)`. -/
def Sequence.newDefaults (C : Collab) (embedding : C.Emb) : Sequence C :=
  Sequence.new C embedding 25 100 25 100 (1/2) true true none false "adam" "GRU"

/-- Python truthiness of an optional-list argument such as `y_valid`:
`None` and the empty list are falsy, a non-empty list is truthy. -/
def truthyO (o : Option (List (List String))) : Bool :=
  match o with
  | none => false
  | some l => !l.isEmpty

/-- Observable collaborator events performed by `Sequence.fit`, recorded
in source order so that ordering claims can be stated. -/
inductive FitEvent (C : Collab) where
  | pfit
  | build (args : BuildArgs)
  | compiled (loss : C.Loss) (optimizer : String)
  | train (o : TrainOutcome C.Model)
  | adoptBest

/-- Returns `true` exactly on the `pfit` event. -/
def isPfit (C : Collab) : FitEvent C → Bool
  | FitEvent.pfit => true
  | _ => false

/-- `Sequence.fit` (wrapper.py lines 48-93), embedded as a function from
the pre-state to the post-state paired with the trace of collaborator
events, in the order the source performs them: `self.p.fit(x_train,
y_train)`; construct `BiLSTMCRF(...)` from the fitted preprocessor's
`label_size` and `vector_len` plus the stored hyperparameters and call
`.build()`; `model.compile(loss=loss, optimizer=self.optimizer)`;
`Trainer(model, preprocessor=self.p).train(...)`; finally `if x_train and
y_valid:` adopt `trainer.best_model` and record
`trainer.best_model_report`.  The source contains no shape validation and
no error path: the function is total. -/
def Sequence.fit (C : Collab) (st : Sequence C)
    (x_train : List (List String)) (y_train : List (List String))
    (x_valid : Option (List (List String)))
    (y_valid : Option (List (List String)))
    (epochs : Nat) (batch_size : Nat) (verbose : Nat)
    (callbacks : Option (List String)) (shuffle : Bool) :
    Sequence C × List (FitEvent C) :=
  let p := C.pfit st.p x_train y_train
  let args : BuildArgs :=
    { num_labels := C.label_size p
      word_embedding_dim := C.vector_len p
      word_lstm_size := st.word_lstm_size
      char_lstm_size := st.char_lstm_size
      fc_dim := st.fc_dim
      dropout := st.dropout
      use_char := st.use_char
      use_crf := st.use_crf
      nn_type := st.nn_type }
  let ml := C.build args
  let model := C.compile ml.1 ml.2 st.optimizer
  let o := C.train model p x_train y_train x_valid y_valid
    epochs batch_size verbose callbacks shuffle
  let adopt := !x_train.isEmpty && truthyO y_valid
  let st1 :=
    if adopt then
      { st with p := p, model := some o.best, best_report := some o.bestReport }
    else
      { st with p := p }
  (st1,
    [FitEvent.pfit, FitEvent.build args, FitEvent.compiled ml.2 st.optimizer,
     FitEvent.train o] ++ if adopt then [FitEvent.adoptBest] else [])

/-- `Sequence.score` (wrapper.py lines 95-116): if a model is present
(`if self.model:` — a model object is truthy, `None` is falsy), transform
`x_test`, take `lengths = map(len, y_test)`, predict, inverse-transform
with those lengths and return `f1_score(y_test, y_pred)`; otherwise
`raise OSError('Could not find a model. Call load(dir_path).')`. -/
def Sequence.score (C : Collab) (st : Sequence C)
    (x_test : List (List String)) (y_test : List (List String)) :
    Except SeqError C.Score :=
  match st.model with
  | some m =>
    let x := C.transform st.p x_test
    let lengths := y_test.map List.length
    let y_pred := C.predict m x
    let y_pred2 := C.inverse_transform st.p y_pred lengths
    Except.ok (C.f1 y_test y_pred2)
  | none =>
    Except.error (SeqError.oserror "Could not find a model. Call load(dir_path).")

/-- `Sequence.predict_sentence` (wrapper.py lines 135-141): transform the
one-sentence batch, set `lengths = [len(sentence)]`, call
`self.model.predict` — which, when `self.model` is `None`, is a Python
AttributeError, there being no presence check — inverse-transform, and
return `y_pred[0]` (an IndexError if the inverse transform returns an
empty batch). -/
def Sequence.predict_sentence (C : Collab) (st : Sequence C)
    (sentence : List String) : Except SeqError (List String) :=
  let x := C.transform st.p [sentence]
  let lengths := [sentence.length]
  match st.model with
  | none =>
    Except.error (SeqError.attributeError "NoneType object has no attribute predict")
  | some m =>
    let y_pred := C.inverse_transform st.p (C.predict m x) lengths
    match y_pred with
    | [] => Except.error (SeqError.indexError "list index out of range")
    | t :: _ => Except.ok t

/-- Truncating three-way zip, the semantics of Python's
`zip(sentence, predictions, ctags)`: stops at the shortest input. -/
def zip3 {α β γ : Type} : List α → List β → List γ → List (α × β × γ)
  | a :: as, b :: bs, c :: cs => (a, b, c) :: zip3 as bs cs
  | _, _, _ => []

/-- One record written for one token by `Sequence.predict_to_iob`
(wrapper.py lines 124-132): start from the token, append a space and each
auxiliary column, then append `' ' + prediction` when the prediction is
non-empty and the literal `' O\n'` otherwise.  Note that only the
empty-prediction branch ends the record with a newline. -/
def iobRecord (token : String) (ctags : List String) (prediction : String) : String :=
  let base := ctags.foldl (fun acc c => acc ++ " " ++ c) token
  if prediction != "" then base ++ " " ++ prediction else base ++ " O\n"

/-- The per-sentence loop of `Sequence.predict_to_iob` (wrapper.py lines
122-133) over `zip(x, all_ctags)`: for each sentence obtain predictions
from `predict_sentence` (whose errors propagate), write one record per
element of `zip(sentence, predictions, sent_ctags)`, then write `'\n'`.
The result is the ordered list of strings passed to `output_file.write`. -/
def iobLoop (C : Collab) (st : Sequence C) :
    List (List String × List (List String)) → Except SeqError (List String)
  | [] => Except.ok []
  | (sentence, sent_ctags) :: rest =>
    match Sequence.predict_sentence C st sentence with
    | Except.error e => Except.error e
    | Except.ok predictions =>
      match iobLoop C st rest with
      | Except.error e => Except.error e
      | Except.ok restWrites =>
        Except.ok ((zip3 sentence predictions sent_ctags).map
          (fun tpc => iobRecord tpc.1 tpc.2.2 tpc.2.1) ++ ["\n"] ++ restWrites)

/-- `Sequence.predict_to_iob` (wrapper.py lines 118-133).  The corpus
loader `load_data(input_path)` is an external collaborator returning
`(x, gold_tags, all_ctags)` with the gold tags discarded (`x, _,
all_ctags = ...`); the embedding therefore takes the loader's output
directly and returns the ordered list of strings written to the output
file. -/
def Sequence.predict_to_iob (C : Collab) (st : Sequence C)
    (x : List (List String)) (_gold_tags : List (List String))
    (all_ctags : List (List (List String))) : Except SeqError (List String) :=
  iobLoop C st (x.zip all_ctags)

/-- Content of one persisted file in the bundle directory. -/
inductive FsEntry (C : Collab) where
  | weights (m : Option C.Model)
  | params
  | pre (p : C.PState)

/-- The filesystem as a finite map from path strings to file contents. -/
def FS (C : Collab) : Type := String → Option (FsEntry C)

/-- Writing one file. -/
def fsWrite (C : Collab) (fs : FS C) (path : String) (e : FsEntry C) : FS C :=
  fun q => if q = path then some e else fs q

/-- Modelled from the spec: `save_model` (models.py, not under src/).
Spec sections 4.6 and 6: it writes the model's weights and hyperparameter
record to the two given paths as an opaque artifact that round-trips
through `load_model`. -/
def save_model (C : Collab) (m : Option C.Model)
    (weights_file params_file : String) (fs : FS C) : FS C :=
  fsWrite C (fsWrite C fs weights_file (FsEntry.weights m)) params_file FsEntry.params

/-- Modelled from the spec: `load_model` (models.py, not under src/).
Spec sections 4.6 and 6: it reconstructs the model from the stored
weights and hyperparameters; a missing or unreadable file is an error. -/
def load_model (C : Collab) (weights_file params_file : String) (fs : FS C) :
    Except SeqError C.Model :=
  match fs weights_file, fs params_file with
  | some (FsEntry.weights (some m)), some FsEntry.params => Except.ok m
  | _, _ => Except.error (SeqError.oserror "bundle incomplete")

/-- Modelled from the spec: `VectorTransformer.save` (preprocessing.py,
not under src/).  Spec section 6: it serializes the preprocessor state to
the given path. -/
def pSaveFile (C : Collab) (p : C.PState) (path : String) (fs : FS C) : FS C :=
  fsWrite C fs path (FsEntry.pre p)

/-- Modelled from the spec: `VectorTransformer.load` (preprocessing.py,
not under src/).  Spec sections 4.6 and 6: given the path and the same
embedding object used at save time it reconstructs the saved preprocessor
state exactly (the round-trip contract for the same-embedding case); a
missing file is an error. -/
def pLoadFile (C : Collab) (path : String) (_embedding : C.Emb) (fs : FS C) :
    Except SeqError C.PState :=
  match fs path with
  | some (FsEntry.pre p) => Except.ok p
  | _ => Except.error (SeqError.oserror "bundle incomplete")

/-- `Sequence.save` (wrapper.py lines 143-148): compute the three fixed
file names under `model_path`, save the preprocessor state, then call
`save_model(self.model, weights_file, params_file)`.  There is no
model-presence check: `self.model` is passed as-is (possibly `None`). -/
def Sequence.save (C : Collab) (st : Sequence C) (model_path : String)
    (fs : FS C) : FS C :=
  let weights_file := model_path ++ "/weights.pkl"
  let params_file := model_path ++ "/params.pkl"
  let preprocessor_file := model_path ++ "/preprocessor.pkl"
  save_model C st.model weights_file params_file
    (pSaveFile C st.p preprocessor_file fs)

/-- `Sequence.load` (wrapper.py lines 150-158): compute the same three
fixed file names under `model_path`, construct `cls(embedding_object)`
with all defaults, then replace its model by `load_model(weights_file,
params_file)` and its preprocessor by
`VectorTransformer.load(preprocessor_file, embedding_object)`. -/
def Sequence.load (C : Collab) (model_path : String) (embedding_object : C.Emb)
    (fs : FS C) : Except SeqError (Sequence C) := do
  let weights_file := model_path ++ "/weights.pkl"
  let params_file := model_path ++ "/params.pkl"
  let preprocessor_file := model_path ++ "/preprocessor.pkl"
  let self0 := Sequence.newDefaults C embedding_object
  let m ← load_model C weights_file params_file fs
  let p ← pLoadFile C preprocessor_file embedding_object fs
  Except.ok { self0 with model := some m, p := p }

/-- A Python method call as a state transformer: `predict_sentence`
(wrapper.py lines 135-141) only reads `self.p` and `self.model` and
assigns no attribute of `self`, so the post-state equals the pre-state. -/
def Sequence.predict_sentence_call (C : Collab) (st : Sequence C)
    (sentence : List String) : Except SeqError (List String) × Sequence C :=
  (Sequence.predict_sentence C st sentence, st)

/-- A concrete collaborator instance used for counterexamples and
witnesses: preprocessor state counts fits, the model is a number, the
network predicts the constant tag `B-X` for every token, and the inverse
transform truncates each predicted row to the requested length. -/
def demoCollab : Collab :=
  { Tensor := List (List String)
    PTensor := List (List String)
    Model := Nat
    PState := Nat
    Loss := String
    Emb := Unit
    Score := List (List String) × List (List String)
    pnew := fun _ _ => 0
    pfit := fun p _ _ => p + 1
    label_size := fun p => p + 1
    vector_len := fun _ => 5
    transform := fun _ ss => ss
    inverse_transform := fun _ t ls => (t.zip ls).map (fun sn => sn.1.take sn.2)
    build := fun _ => (7, "crf_loss")
    compile := fun m _ _ => m
    predict := fun _ t => t.map (fun s => s.map (fun _ => "B-X"))
    train := fun m _ _ _ _ _ _ _ _ _ _ => ⟨m, m, "report"⟩
    f1 := fun a b => (a, b) }

/-- A freshly constructed demo orchestrator: no model adopted. -/
def demoFresh : Sequence demoCollab := Sequence.newDefaults demoCollab ()

/-- A demo orchestrator holding an adopted model. -/
def demoTrained : Sequence demoCollab := { demoFresh with model := some (7 : Nat) }

/-- The `BiLSTMCRF` argument record as `fit` constructs it (wrapper.py
lines 71-79): label count and embedding vector width are read from the
preprocessor after `self.p.fit(x_train, y_train)`, the remaining fields
are the hyperparameters stored at construction. -/
def Sequence.fitArgs (C : Collab) (st : Sequence C)
    (x_train y_train : List (List String)) : BuildArgs :=
  let p := C.pfit st.p x_train y_train
  { num_labels := C.label_size p
    word_embedding_dim := C.vector_len p
    word_lstm_size := st.word_lstm_size
    char_lstm_size := st.char_lstm_size
    fc_dim := st.fc_dim
    dropout := st.dropout
    use_char := st.use_char
    use_crf := st.use_crf
    nn_type := st.nn_type }

/-- The Trainer outcome produced inside `fit` (wrapper.py lines 84-88):
train the freshly built and compiled model against the fitted
preprocessor and the given data. -/
def Sequence.fitOutcome (C : Collab) (st : Sequence C)
    (x_train y_train : List (List String))
    (x_valid y_valid : Option (List (List String)))
    (epochs batch_size verbose : Nat)
    (callbacks : Option (List String)) (shuffle : Bool) : TrainOutcome C.Model :=
  let p := C.pfit st.p x_train y_train
  let ml := C.build (Sequence.fitArgs C st x_train y_train)
  C.train (C.compile ml.1 ml.2 st.optimizer) p x_train y_train x_valid y_valid
    epochs batch_size verbose callbacks shuffle

/-- Appending two distinct suffixes to the same directory prefix yields
distinct paths. -/
lemma append_tail_ne (d : String) (a b : String) (h : a ≠ b) :
    d ++ a ≠ d ++ b := by
  intro he
  apply h
  apply String.ext
  have hd := String.ext_iff.mp he
  simp only [String.data_append] at hd
  exact List.append_cancel_left hd

/-- Length of the truncating three-way zip. -/
lemma zip3_length {α β γ : Type} (a : List α) (b : List β) (c : List γ) :
    (zip3 a b c).length = min a.length (min b.length c.length) := by
  induction a generalizing b c with
  | nil => simp [zip3]
  | cons x xs ih =>
    cases b with
    | nil => simp [zip3]
    | cons y ys =>
      cases c with
      | nil => simp [zip3]
      | cons z zs =>
        simp [zip3, ih]
        omega

/-- Claim C1 (amended): on an orchestrator whose model is absent, `score`
raises the explicit descriptive not-loaded condition, while
`predict_sentence` — which performs no model-presence check — fails with
the attribute error produced by invoking `predict` on the absent model;
neither returns a prediction. -/
theorem C1_theorem (C : Collab) (st : Sequence C) (s : List String)
    (x y : List (List String)) (h : st.model = none) :
    Sequence.score C st x y =
      Except.error (SeqError.oserror "Could not find a model. Call load(dir_path).")
    ∧ Sequence.predict_sentence C st s =
      Except.error (SeqError.attributeError "NoneType object has no attribute predict") := by
  constructor
  · simp [Sequence.score, h]
  · simp [Sequence.predict_sentence, h]

/-- Claim C1, witness: the amended statement evaluated on a freshly
constructed demo orchestrator. -/
theorem C1_witness :
    Sequence.score demoCollab demoFresh [] [] =
      Except.error (SeqError.oserror "Could not find a model. Call load(dir_path).")
    ∧ Sequence.predict_sentence demoCollab demoFresh ["John"] =
      Except.error (SeqError.attributeError "NoneType object has no attribute predict") :=
  C1_theorem demoCollab demoFresh ["John"] [] [] rfl

/-- Claim C1, counterexample to the original statement: on a freshly
constructed orchestrator `predict_sentence` does not raise the
descriptive not-loaded condition that `score` raises; it fails with an
attribute error instead. -/
theorem C1_counterexample :
    Sequence.predict_sentence demoCollab demoFresh ["John"] =
      Except.error (SeqError.attributeError "NoneType object has no attribute predict")
    ∧ SeqError.attributeError "NoneType object has no attribute predict" ≠
      SeqError.oserror "Could not find a model. Call load(dir_path)." :=
  ⟨rfl, by decide⟩

/-- Claim C2: evaluation of `predict_to_iob` at a sentence whose two
tokens both receive non-empty predicted tags.  The two per-token records
are written without a trailing newline (only the empty-prediction branch
appends one), so the output stream holds both tokens on a single physical
line instead of one line per token. -/
theorem C2_theorem :
    Sequence.predict_to_iob demoCollab demoTrained [["John", "Smith"]] [["O", "O"]]
        [[["NNP"], ["NNP"]]] =
      Except.ok ["John NNP B-X", "Smith NNP B-X", "\n"]
    ∧ String.join ["John NNP B-X", "Smith NNP B-X", "\n"] =
        "John NNP B-XSmith NNP B-X\n"
    ∧ ("John NNP B-XSmith NNP B-X\n").data.count '\n' = 1 :=
  ⟨rfl, rfl, rfl⟩

/-- Claim C3: evaluation of `fit` at a training pair whose sentence has
two tokens but whose tag sequence has one.  No `ShapeMismatch` is raised
— the embedded `fit` is total because wrapper.py contains no length
check and no raise — and the very first collaborator action is
`self.p.fit` on the mismatched pair, after which the build, compile and
train steps all run. -/
theorem C3_theorem :
    (Sequence.fit demoCollab demoFresh [["a", "b"]] [["O"]] none none
        1 32 1 none true).2 =
      [FitEvent.pfit,
       FitEvent.build
         { num_labels := 2, word_embedding_dim := 5, word_lstm_size := 100,
           char_lstm_size := 25, fc_dim := 100, dropout := 1/2,
           use_char := true, use_crf := true, nn_type := "GRU" },
       FitEvent.compiled "crf_loss" "adam",
       FitEvent.train ⟨(7 : Nat), (7 : Nat), "report"⟩] := rfl

/-- Claim C4 (amended): `fit` runs the Trainer; if `x_train` and
`y_valid` are both non-empty the orchestrator adopts the Trainer's best
snapshot and records the best report, otherwise its live model and report
are left unchanged from before the call (the trained model is not
adopted). -/
theorem C4_theorem (C : Collab) (st : Sequence C)
    (x y : List (List String)) (xv yv : Option (List (List String)))
    (e b v : Nat) (cb : Option (List String)) (sh : Bool) :
    ∃ o : TrainOutcome C.Model,
      FitEvent.train o ∈ (Sequence.fit C st x y xv yv e b v cb sh).2
      ∧ (Sequence.fit C st x y xv yv e b v cb sh).1.model =
          (if (!x.isEmpty && truthyO yv) = true then some o.best else st.model)
      ∧ (Sequence.fit C st x y xv yv e b v cb sh).1.best_report =
          (if (!x.isEmpty && truthyO yv) = true then some o.bestReport
           else st.best_report) := by
  refine ⟨Sequence.fitOutcome C st x y xv yv e b v cb sh, ?_, ?_, ?_⟩
  all_goals by_cases h : (!x.isEmpty && truthyO yv) = true <;>
    simp [Sequence.fit, Sequence.fitOutcome, Sequence.fitArgs, h]

/-- Claim C4, counterexample to the original statement: `fit` called with
non-empty training data and no validation labels leaves the live model
`none`, although the Trainer's in-place-trained current model at the end
of training is the built model `7`; the live model is therefore not
"whatever the Trainer leaves as current". -/
theorem C4_counterexample :
    (Sequence.fit demoCollab demoFresh [["a"]] [["O"]] none none
        1 32 1 none true).1.model = none
    ∧ (Sequence.fit demoCollab demoFresh [["a"]] [["O"]] none none
        1 32 1 none true).2 =
      [FitEvent.pfit,
       FitEvent.build
         { num_labels := 2, word_embedding_dim := 5, word_lstm_size := 100,
           char_lstm_size := 25, fc_dim := 100, dropout := 1/2,
           use_char := true, use_crf := true, nn_type := "GRU" },
       FitEvent.compiled "crf_loss" "adam",
       FitEvent.train ⟨(7 : Nat), (7 : Nat), "report"⟩]
    ∧ (none : Option Nat) ≠
        some (TrainOutcome.current ⟨(7 : Nat), (7 : Nat), "report"⟩) :=
  ⟨rfl, rfl, by decide⟩

/-- Claim C5: with an adopted model, `score` transforms the test
sentences through the fitted preprocessor, predicts, inverse-transforms
the prediction using the per-sentence lengths of `y_test`, and returns
the f1 metric of `y_test` against the resulting predicted tag
sequences. -/
theorem C5_theorem (C : Collab) (st : Sequence C) (m : C.Model)
    (x_test y_test : List (List String)) (h : st.model = some m) :
    Sequence.score C st x_test y_test =
      Except.ok (C.f1 y_test (C.inverse_transform st.p
        (C.predict m (C.transform st.p x_test)) (y_test.map List.length))) := by
  simp [Sequence.score, h]

/-- Claim C5, witness: the scoring pipeline evaluated on the demo
orchestrator, where the constant network predicts `B-X` for the single
token. -/
theorem C5_witness :
    Sequence.score demoCollab demoTrained [["John"]] [["B-PER"]] =
      Except.ok ([["B-PER"]], [["B-X"]]) := by
  exact C5_theorem demoCollab demoTrained (7 : Nat) [["John"]] [["B-PER"]] rfl

/-- Claim C6: the ordered trace of every `fit` call is exactly
Preprocessor fit, then model build from the now-fitted preprocessor's
label count and vector width plus the stored hyperparameters, then
compile with the stored optimizer, then the Trainer run, with adoption of
a best model — when it happens at all — strictly afterwards; the
Preprocessor is fitted exactly once. -/
theorem C6_theorem (C : Collab) (st : Sequence C)
    (x y : List (List String)) (xv yv : Option (List (List String)))
    (e b v : Nat) (cb : Option (List String)) (sh : Bool) :
    (Sequence.fit C st x y xv yv e b v cb sh).2 =
      [FitEvent.pfit,
       FitEvent.build (Sequence.fitArgs C st x y),
       FitEvent.compiled (C.build (Sequence.fitArgs C st x y)).2 st.optimizer,
       FitEvent.train (Sequence.fitOutcome C st x y xv yv e b v cb sh)]
      ++ (if (!x.isEmpty && truthyO yv) = true then [FitEvent.adoptBest] else [])
    ∧ (Sequence.fitArgs C st x y).num_labels = C.label_size (C.pfit st.p x y)
    ∧ (Sequence.fitArgs C st x y).word_embedding_dim =
        C.vector_len (C.pfit st.p x y)
    ∧ (((Sequence.fit C st x y xv yv e b v cb sh).2).filter (isPfit C)).length
        = 1 := by
  refine ⟨rfl, rfl, rfl, ?_⟩
  by_cases h : (!x.isEmpty && truthyO yv) = true <;>
    simp [Sequence.fit, isPfit, h]

/-- Claim C7: saving a trained orchestrator and loading it back from the
same directory with the same embedding resource succeeds — `load`
locates exactly the three fixed-name files `save` wrote — and yields an
orchestrator with the same preprocessor state and model, whose
`predict_sentence` output on any fixed sentence is unchanged. -/
theorem C7_theorem (C : Collab) (st : Sequence C) (dir : String) (emb : C.Emb)
    (fs : FS C) (m : C.Model) (s : List String) (h : st.model = some m) :
    ∃ st2 : Sequence C,
      Sequence.load C dir emb (Sequence.save C st dir fs) = Except.ok st2
      ∧ st2.model = st.model
      ∧ st2.p = st.p
      ∧ Sequence.predict_sentence C st2 s = Sequence.predict_sentence C st s := by
  have hwp : dir ++ "/weights.pkl" ≠ dir ++ "/params.pkl" :=
    append_tail_ne dir _ _ (by decide)
  have hprw : dir ++ "/preprocessor.pkl" ≠ dir ++ "/weights.pkl" :=
    append_tail_ne dir _ _ (by decide)
  have hprp : dir ++ "/preprocessor.pkl" ≠ dir ++ "/params.pkl" :=
    append_tail_ne dir _ _ (by decide)
  refine ⟨{ Sequence.newDefaults C emb with model := some m, p := st.p },
    ?_, ?_, rfl, ?_⟩
  · simp only [Sequence.load, Sequence.save, save_model, pSaveFile, fsWrite,
      load_model, pLoadFile, h, if_neg hwp, if_neg hprw, if_neg hprp, if_pos rfl]
    rfl
  · exact h.symm
  · simp [Sequence.predict_sentence, h]

/-- Claim C7, witness: the round trip evaluated on the demo orchestrator
over an empty filesystem. -/
theorem C7_witness :
    ∃ st2 : Sequence demoCollab,
      Sequence.load demoCollab "dir" ()
          (Sequence.save demoCollab demoTrained "dir" (fun _ => none)) =
        Except.ok st2
      ∧ st2.model = demoTrained.model
      ∧ st2.p = demoTrained.p
      ∧ Sequence.predict_sentence demoCollab st2 ["John"] =
          Sequence.predict_sentence demoCollab demoTrained ["John"] :=
  C7_theorem demoCollab demoTrained "dir" () (fun _ => none) (7 : Nat) ["John"] rfl

/-- Claim C8: calling `predict_sentence` twice with the same sentence and
no intervening `fit` returns identical results; the method reads
`self.p` and `self.model` and assigns nothing, so the second call runs on
an identical state. -/
theorem C8_theorem (C : Collab) (st : Sequence C) (s : List String)
    (m : C.Model) (_h : st.model = some m) :
    (Sequence.predict_sentence_call C
        (Sequence.predict_sentence_call C st s).2 s).1 =
      (Sequence.predict_sentence_call C st s).1 := rfl

/-- Claim C8, witness: the double call evaluated on the demo
orchestrator. -/
theorem C8_witness :
    (Sequence.predict_sentence_call demoCollab
        (Sequence.predict_sentence_call demoCollab demoTrained ["John"]).2
        ["John"]).1 =
      (Sequence.predict_sentence_call demoCollab demoTrained ["John"]).1 :=
  C8_theorem demoCollab demoTrained ["John"] (7 : Nat) rfl

/-- Claim C9: `save` on an orchestrator with no adopted model performs no
model-presence check — its embedding is a total function on the
filesystem — and writes the preprocessor state while handing the absent
(`None`) model straight to the persistence collaborator, which records it
in the weights artifact. -/
theorem C9_theorem (C : Collab) (st : Sequence C) (dir : String) (fs : FS C)
    (h : st.model = none) :
    Sequence.save C st dir fs (dir ++ "/preprocessor.pkl") =
      some (FsEntry.pre st.p)
    ∧ Sequence.save C st dir fs (dir ++ "/weights.pkl") =
      some (FsEntry.weights none) := by
  have hprw : dir ++ "/preprocessor.pkl" ≠ dir ++ "/weights.pkl" :=
    append_tail_ne dir _ _ (by decide)
  have hprp : dir ++ "/preprocessor.pkl" ≠ dir ++ "/params.pkl" :=
    append_tail_ne dir _ _ (by decide)
  have hwp : dir ++ "/weights.pkl" ≠ dir ++ "/params.pkl" :=
    append_tail_ne dir _ _ (by decide)
  constructor
  · simp [Sequence.save, save_model, pSaveFile, fsWrite, hprw, hprp]
  · simp [Sequence.save, save_model, pSaveFile, fsWrite, h, hwp]

/-- Claim C9, witness: saving a freshly constructed demo orchestrator
(no model) over an empty filesystem. -/
theorem C9_witness :
    Sequence.save demoCollab demoFresh "dir" (fun _ => none)
        ("dir" ++ "/preprocessor.pkl") =
      some (FsEntry.pre demoFresh.p)
    ∧ Sequence.save demoCollab demoFresh "dir" (fun _ => none)
        ("dir" ++ "/weights.pkl") =
      some (FsEntry.weights none) :=
  C9_theorem demoCollab demoFresh "dir" (fun _ => none) rfl

/-- Claim C10: when the predicted tag sequence or the auxiliary-column
sequence of a sentence is shorter than its token sequence,
`predict_to_iob` still completes and emits, for that sentence, exactly
`min(tokens, predictions, aux entries)` per-token records (the
truncating-zip semantics), silently dropping the trailing tokens. -/
theorem C10_theorem (C : Collab) (st : Sequence C)
    (sentence preds : List String) (sent_ctags : List (List String))
    (gold : List (List String))
    (hp : Sequence.predict_sentence C st sentence = Except.ok preds)
    (_hshort : preds.length < sentence.length
      ∨ sent_ctags.length < sentence.length) :
    Sequence.predict_to_iob C st [sentence] gold [sent_ctags] =
      Except.ok ((zip3 sentence preds sent_ctags).map
        (fun tpc => iobRecord tpc.1 tpc.2.2 tpc.2.1) ++ ["\n"])
    ∧ (zip3 sentence preds sent_ctags).length =
        min sentence.length (min preds.length sent_ctags.length) := by
  constructor
  · simp [Sequence.predict_to_iob, iobLoop, hp]
  · exact zip3_length sentence preds sent_ctags

/-- Claim C10, witness: a two-token sentence with a single
auxiliary-column entry yields exactly one record plus the sentence
separator. -/
theorem C10_witness :
    Sequence.predict_to_iob demoCollab demoTrained [["a", "b"]] [["O", "O"]]
        [[["NN"]]] =
      Except.ok ["a NN B-X", "\n"]
    ∧ (zip3 ["a", "b"] ["B-X", "B-X"] [["NN"]]).length = min 2 (min 2 1) := by
  exact C10_theorem demoCollab demoTrained ["a", "b"] ["B-X", "B-X"] [["NN"]]
    [["O", "O"]] rfl (Or.inr (by decide))

end PolDeepNer
